import Mathlib

/-!
Verification of the kaggle-5-day-agents repository against its
natural-language specification.

The development shallowly embeds the Python glue code of the repository:
session-state tools (`Day3a/agents/session_agent.py`), session-service
selection (`Day3a/agents/session_agent.py`, `Day3b/agents/memory_agent.py`),
the FastAPI chat endpoint (`agents-api-server.py`), the Vertex AI bridge
agent lookup (`vertex-ai-agent-bridge-api.py`), the customer-support agent
declaration (`agents/CustomerSupportAgent/agent.py`), the logging
configuration (`utility/logging_config.py`) and the shipping-agent package
surface (`Day2b/shipping_agent/__init__.py`).

Python dictionaries with a fixed key set are embedded as association lists
in insertion order; mutable string-keyed state is embedded as
`String → Option String`; environment access is a parameter of the same
type; exceptions become `Except`.
-/

/-! ## Session state model (Day3a/agents/session_agent.py)

`ToolContext.state` is the framework's dict-like per-session key/value
store: `state[k] = v` assigns, `state.get(k, d)` reads with a default.
-/

/-- The dict-like per-session key/value store behind `ToolContext.state`. -/
def SessionState : Type := String → Option String

/-- Embedding of the Python assignment `state[k] = v`. -/
def stateSet (st : SessionState) (k v : String) : SessionState :=
  fun q => if q = k then some v else st q

/-- Embedding of the Python read `state.get(k, default)`. -/
def stateGetD (st : SessionState) (k dflt : String) : String :=
  (st k).getD dflt

/-- The slice of `ToolContext` the session tools use: its mutable state. -/
structure ToolContext where
  state : SessionState

/-- `save_userinfo(tool_context, user_name, country)` from
`Day3a/agents/session_agent.py`: stores the two values under the keys
`user:name` and `user:country` and returns a status dictionary. The
returned pair is (updated context, returned dict). -/
def save_userinfo (tool_context : ToolContext) (user_name country : String) :
    ToolContext × List (String × String) :=
  let st1 := stateSet tool_context.state "user:name" user_name
  let st2 := stateSet st1 "user:country" country
  (⟨st2⟩,
    [("status", "success"),
     ("message", "Saved user info: " ++ user_name ++ " from " ++ country)])

/-- `retrieve_userinfo(tool_context)` from `Day3a/agents/session_agent.py`:
reads the two keys with `state.get`, substituting the placeholder defaults,
and returns the result dictionary. -/
def retrieve_userinfo (tool_context : ToolContext) : List (String × String) :=
  let user_name := stateGetD tool_context.state "user:name" "Username not found"
  let country := stateGetD tool_context.state "user:country" "Country not found"
  [("status", "success"), ("user_name", user_name), ("country", country)]

/-! ## Environment access

`os.getenv(k, default)` over an environment embedded as
`String → Option String`. An unset variable reads as the default. -/

/-- Embedding of `os.getenv(k, default)`. -/
def pyGetenv (env : String → Option String) (k dflt : String) : String :=
  (env k).getD dflt

/-! ## Session service selection
(Day3a/agents/session_agent.py and Day3b/agents/memory_agent.py)

Both modules run, at import time,
`SESSION_SERVICE_TYPE = os.getenv("SESSION_SERVICE_TYPE", "inmemory")` and
`DB_URL = os.getenv("DB_URL", <module default>)`, then
`if SESSION_SERVICE_TYPE == "database": DatabaseSessionService(db_url=DB_URL)
else: InMemorySessionService()`. -/

/-- The session service a module ends up constructing. -/
inductive SessionServiceChoice where
  | databaseSessionService (db_url : String) : SessionServiceChoice
  | inMemorySessionService : SessionServiceChoice
deriving DecidableEq

/-- The session-service selection of `Day3a/agents/session_agent.py`
(its `DB_URL` default is `sqlite:///session_data.db`). -/
def sessionAgent_session_service (env : String → Option String) :
    SessionServiceChoice :=
  let sessionServiceType := pyGetenv env "SESSION_SERVICE_TYPE" "inmemory"
  let dbUrl := pyGetenv env "DB_URL" "sqlite:///session_data.db"
  if sessionServiceType = "database" then
    .databaseSessionService dbUrl
  else
    .inMemorySessionService

/-- The session-service selection of `Day3b/agents/memory_agent.py`
(its `DB_URL` default is `sqlite:///memory_data.db`). -/
def memoryAgent_session_service (env : String → Option String) :
    SessionServiceChoice :=
  let sessionServiceType := pyGetenv env "SESSION_SERVICE_TYPE" "inmemory"
  let dbUrl := pyGetenv env "DB_URL" "sqlite:///memory_data.db"
  if sessionServiceType = "database" then
    .databaseSessionService dbUrl
  else
    .inMemorySessionService

/-! ## Shipping-agent package surface (Day2b/shipping_agent/__init__.py)

The package initialiser runs `from . import agent` and then
`from .agent import (...)`, re-exporting the listed names; the demo driver
`Day2b/run_shipping_workflow.py` runs
`from shipping_agent.agent import run_shipping_workflow`. -/

/-- The names `Day2b/shipping_agent/__init__.py` imports from
`shipping_agent.agent` and re-exports, in source order. -/
def shippingInitReexports : List String :=
  ["shipping_agent", "shipping_app", "shipping_runner", "session_service",
   "run_shipping_workflow", "check_for_approval", "print_agent_response",
   "create_approval_response", "place_shipping_order", "root_agent"]

/-- Modelled from the spec: the module `shipping_agent/agent.py` — the
long-running shipping-approval workflow, described by the spec as the
repository's most elaborate piece (framework pause-for-approval, resume
with decision) — is not among the source files; only its package
initialiser and its demo caller are. Per the spec and those two files, the
module defines exactly the workflow entry point, the approval helpers, the
order tool, and the agent/app/runner/session objects the initialiser
re-exports. -/
def shippingAgentModuleDefs : List String :=
  ["shipping_agent", "shipping_app", "shipping_runner", "session_service",
   "run_shipping_workflow", "check_for_approval", "print_agent_response",
   "create_approval_response", "place_shipping_order", "root_agent"]

/-! ## Customer support agent (agents/CustomerSupportAgent/agent.py)

The module reads `PRODUCT_CATALOG_URL` from the environment with default
`http://localhost:8001`, builds a `RemoteA2aAgent` whose `agent_card` is
`f"{PRODUCT_CATALOG_URL}{AGENT_CARD_WELL_KNOWN_PATH}"`, and declares the
customer support `LlmAgent` with that proxy as its only sub-agent.
`AGENT_CARD_WELL_KNOWN_PATH` is a framework constant, embedded here as a
parameter. -/

/-- The declarative content of a `RemoteA2aAgent(...)` construction. -/
structure RemoteA2aAgentDecl where
  name : String
  description : String
  agent_card : String
deriving DecidableEq

/-- A sub-agent entry of an `LlmAgent` declaration. -/
inductive SubAgentDecl where
  | remoteA2a (a : RemoteA2aAgentDecl) : SubAgentDecl
deriving DecidableEq

/-- The declarative content of the customer support `LlmAgent(...)`. -/
structure LlmAgentDecl where
  model : String
  name : String
  description : String
  sub_agents : List SubAgentDecl

/-- `PRODUCT_CATALOG_URL` from `agents/CustomerSupportAgent/agent.py`. -/
def PRODUCT_CATALOG_URL (env : String → Option String) : String :=
  pyGetenv env "PRODUCT_CATALOG_URL" "http://localhost:8001"

/-- `remote_product_catalog_agent` from
`agents/CustomerSupportAgent/agent.py`: the client-side A2A proxy whose
`agent_card` points at the product catalog server's well-known path. -/
def remote_product_catalog_agent (env : String → Option String)
    (agentCardWellKnownPath : String) : RemoteA2aAgentDecl :=
  { name := "product_catalog_agent"
    description :=
      "Remote product catalog agent from external vendor that provides product information."
    agent_card := PRODUCT_CATALOG_URL env ++ agentCardWellKnownPath }

/-- `customer_support_agent` from `agents/CustomerSupportAgent/agent.py`:
the consumer agent, declared with the remote proxy as its only sub-agent. -/
def customer_support_agent (env : String → Option String)
    (agentCardWellKnownPath : String) : LlmAgentDecl :=
  { model := "gemini-2.5-flash-lite"
    name := "customer_support_agent"
    description :=
      "A customer support assistant that helps customers with product inquiries and information."
    sub_agents :=
      [.remoteA2a (remote_product_catalog_agent env agentCardWellKnownPath)] }

/-! ## Python string helpers shared by the HTTP wrappers -/

/-- A single-quote character (codepoint 39), used by Python `repr`. -/
def singleQuote : String := String.mk [Char.ofNat 39]

/-- Python `repr` of a plain string: the text between single quotes. -/
def pyStrRepr (s : String) : String := singleQuote ++ s ++ singleQuote

/-- Comma-space joining, as inside a Python list display. -/
def joinCommaSpace : List String → String
  | [] => ""
  | [x] => x
  | x :: y :: rest => x ++ ", " ++ joinCommaSpace (y :: rest)

/-- Python `repr` of a list of strings, e.g. `f"{list(d.keys())}"`. -/
def pyListRepr (names : List String) : String :=
  "[" ++ joinCommaSpace (names.map pyStrRepr) ++ "]"

/-- Python string-or-default `x or d` on an optional string: `None` and the
empty string are falsy, so both fall back to the default. -/
def pyOrStr (x : Option String) (d : String) : String :=
  match x with
  | none => d
  | some s => if s = "" then d else s

/-! ## Agents API server (agents-api-server.py)

`chat` resolves `request.agent_name or "helpful_assistant"`, obtains a
runner (which calls `get_agent`; an unknown name raises
`ValueError(f"Unknown agent: ...")`), runs the agent, and wraps any raised
exception `e` as `HTTPException(status_code=500,
detail=f"Error running agent: {str(e)}")`. Agent loading and the model
call are external effects, embedded as the `runAgent` parameter. -/

/-- The body of a POST `/chat` request (`ChatRequest` in
`agents-api-server.py`). -/
structure ChatRequest where
  message : String
  agent_name : Option String
  conversation_id : Option String
deriving DecidableEq

/-- The body of a successful `/chat` response (`ChatResponse`). -/
structure ChatResponse where
  response : String
  agent_name : String
  conversation_id : Option String
deriving DecidableEq

/-- A raised `HTTPException(status_code, detail)`. -/
structure HTTPExceptionModel where
  status_code : Nat
  detail : String
deriving DecidableEq

/-- The keys of the `agent_paths` table inside `get_agent`, in source
order: the nine known agent names. -/
def agent_paths_keys : List String :=
  ["helpful_assistant", "sample-agent", "currency_agent", "image_agent",
   "shipping_agent", "research_agent", "customer_support_agent",
   "product_catalog_agent", "weather_assistant"]

/-- The `ValueError` message `get_agent` raises for an unknown name:
`f"Unknown agent: {agent_name}. Available: {list(agent_paths.keys())}"`. -/
def unknown_agent_message (agent_name : String) : String :=
  "Unknown agent: " ++ agent_name ++ ". Available: " ++
    pyListRepr agent_paths_keys

/-- The name-validation step of `get_agent` in `agents-api-server.py`: an
unknown agent name raises `ValueError`; a known one proceeds to loading
(an external effect not modelled here; the cache only ever holds known
names, so the unknown branch is unaffected by it). -/
def get_agent_check (agent_name : String) : Except String Unit :=
  if agent_name ∈ agent_paths_keys then .ok ()
  else .error (unknown_agent_message agent_name)

/-- The POST `/chat` handler of `agents-api-server.py`. `runAgent` stands
for the external work of a resolved agent name: loading, running, and
response-text extraction; its `Except.error` is any exception raised
there. Every exception inside the handler is mapped to HTTP 500 with the
`Error running agent:` detail. -/
def chat (runAgent : String → String → Except String String)
    (request : ChatRequest) : Except HTTPExceptionModel ChatResponse :=
  let agent_name := pyOrStr request.agent_name "helpful_assistant"
  match get_agent_check agent_name with
  | .error e => .error ⟨500, "Error running agent: " ++ e⟩
  | .ok _ =>
    match runAgent agent_name request.message with
    | .error e => .error ⟨500, "Error running agent: " ++ e⟩
    | .ok text =>
      .ok { response := text, agent_name := agent_name,
            conversation_id := request.conversation_id }

/-- A runner that always succeeds with the text `ok`; a concrete stand-in
for the external agent run in witnesses. -/
def chatRunnerOk : String → String → Except String String :=
  fun _ _ => .ok "ok"

/-! ## Vertex AI bridge (vertex-ai-agent-bridge-api.py)

`get_deployed_agent` consults a cache, lists the deployed agents, scans
for the first whose trailing resource-name segment matches the requested
name case-insensitively by equality or substring containment, and
otherwise raises 404 (naming the available ids when the request named an
agent) or falls back to the first listed agent. The Vertex AI listing and
the cache contents are embedded as parameters. -/

/-- A deployed `agent_engines` agent: the slice the lookup uses. -/
structure AgentEngineAgent where
  resource_name : String
deriving DecidableEq

/-- Splitting a character list at a separator character, as Python
`str.split(sep)` for a one-character separator: `acc` holds the current
segment reversed. -/
def pySplitCharAux (sep : Char) : List Char → List Char → List (List Char)
  | acc, [] => [acc.reverse]
  | acc, c :: cs =>
    if c = sep then acc.reverse :: pySplitCharAux sep [] cs
    else pySplitCharAux sep (c :: acc) cs

/-- Python `a.resource_name.split('/')[-1]`: the trailing segment of the
resource name. -/
def agent_engine_id (a : AgentEngineAgent) : String :=
  String.mk ((pySplitCharAux '/' [] a.resource_name.data).getLastD [])

/-- Python `s.lower()` on the embedded character data. -/
def pyLower (s : String) : String := String.mk (s.data.map Char.toLower)

/-- Python substring containment `needle in hay` on character lists; the
empty needle is contained in everything. -/
def pyInChars (needle : List Char) : List Char → Bool
  | [] => needle.isEmpty
  | c :: rest => needle.isPrefixOf (c :: rest) || pyInChars needle rest

/-- Python `needle in hay` on strings. -/
def pyInStr (needle hay : String) : Bool := pyInChars needle.data hay.data

/-- The loop condition of `get_deployed_agent`:
`agent_name.lower() == agent_id.lower() or
agent_name.lower() in agent_id.lower()`. -/
def agent_name_matches (agent_name : String) (a : AgentEngineAgent) : Bool :=
  pyLower agent_name == pyLower (agent_engine_id a) ||
    pyInStr (pyLower agent_name) (pyLower (agent_engine_id a))

/-- The 404 detail when no agents are deployed. -/
def noAgentsDetail : String :=
  "No agents found in Vertex AI Agent Engine. Please deploy agents first."

/-- The 404 detail when a named agent is not found:
`f"Agent '{agent_name}' not found. Available agents: {...ids...}"`. -/
def agentNotFoundDetail (agent_name : String)
    (agents_list : List AgentEngineAgent) : String :=
  "Agent " ++ singleQuote ++ agent_name ++ singleQuote ++
    " not found. Available agents: " ++
    pyListRepr (agents_list.map agent_engine_id)

/-- `get_deployed_agent` from `vertex-ai-agent-bridge-api.py`. The cache
and the listing returned by `agent_engines.list()` are parameters; the
function's cache write is an external effect with no bearing on the
returned value. -/
def get_deployed_agent (cache : String → Option AgentEngineAgent)
    (agents_list : List AgentEngineAgent) (agent_name : String) :
    Except HTTPExceptionModel AgentEngineAgent :=
  match cache agent_name with
  | some a => .ok a
  | none =>
    match agents_list with
    | [] => .error ⟨404, noAgentsDetail⟩
    | a0 :: rest =>
      match (a0 :: rest).find? (fun a => agent_name_matches agent_name a) with
      | some a => .ok a
      | none =>
        if agent_name = "" then .ok a0
        else .error ⟨404, agentNotFoundDetail agent_name (a0 :: rest)⟩

/-! ## Logging configuration (utility/logging_config.py)

Only the handler bookkeeping on the root logger matters to the claims; a
handler is embedded by its kind. `logging.FileHandler` subclasses
`logging.StreamHandler`, so a file handler satisfies both isinstance
tests. `otherHandler` is any handler that is neither. -/

/-- A root-logger handler, by the isinstance tests the code performs. -/
inductive LogHandler where
  | streamHandler : LogHandler
  | fileHandler : LogHandler
  | otherHandler : LogHandler
deriving DecidableEq

/-- `isinstance(h, logging.StreamHandler)`; true for file handlers too,
since `FileHandler` subclasses `StreamHandler`. -/
def isStreamHandlerInst : LogHandler → Bool
  | .streamHandler => true
  | .fileHandler => true
  | .otherHandler => false

/-- `isinstance(h, logging.FileHandler)`. -/
def isFileHandlerInst : LogHandler → Bool
  | .fileHandler => true
  | _ => false

/-- The first handler loop of the `file_only` branch: it iterates over a
copy (`root_logger.handlers[:]`) and removes every `StreamHandler` — which
includes every `FileHandler`, making the `elif FileHandler` arm
unreachable. Handlers of other kinds are untouched. -/
def removeStreamHandlersPass (hs : List LogHandler) : List LogHandler :=
  hs.filter (fun h => !isStreamHandlerInst h)

/-- The closing normalisation loop under `file_only`: it iterates over the
live `root_logger.handlers` list while calling `removeHandler` on each
non-file handler. Removing the element at the current index shifts the
rest left, so the element immediately after a removed one is kept
unexamined — the standard remove-while-iterating skip. -/
def finalHandlerPass : List LogHandler → List LogHandler
  | [] => []
  | h :: rest =>
    if isFileHandlerInst h then h :: finalHandlerPass rest
    else
      match rest with
      | [] => []
      | h2 :: rest2 => h2 :: finalHandlerPass rest2

/-- The root-handler list `setup_adk_logging` operates on just before its
closing normalisation loop, in the `file_only=True` branch: stream
handlers removed, then a fresh `FileHandler` appended when the log file
path is truthy. A `log_file` of `None` is first replaced by the
`os.path.join(..., "agents_log", "agent.latest.log")` default, which is a
non-empty string, so that case always appends the file handler. -/
def fileOnlyHandlersBeforeFinalPass (handlers : List LogHandler)
    (log_file : Option String) : List LogHandler :=
  match log_file with
  | none => removeStreamHandlersPass handlers ++ [LogHandler.fileHandler]
  | some s =>
    if s = "" then removeStreamHandlersPass handlers
    else removeStreamHandlersPass handlers ++ [LogHandler.fileHandler]

/-- The effect of `setup_adk_logging(..., file_only=True)` on the root
logger's handler list (the level and formatter updates carry no structural
content). The child-logger loop between the two passes touches only child
loggers. -/
def setup_adk_logging_file_only (handlers : List LogHandler)
    (log_file : Option String) : List LogHandler :=
  finalHandlerPass (fileOnlyHandlersBeforeFinalPass handlers log_file)

/-! ## Theorems for the session tools -/

/-- C1: saving user info and then retrieving it on the same session state
round-trips exactly: `retrieve_userinfo` returns the dictionary
`{"status": "success", "user_name": n, "country": c}` with the values the
save stored under `user:name` and `user:country`. -/
theorem save_retrieve_roundtrip (st : SessionState) (n c : String) :
    retrieve_userinfo (save_userinfo ⟨st⟩ n c).1 =
      [("status", "success"), ("user_name", n), ("country", c)] := by
  simp [retrieve_userinfo, save_userinfo, stateGetD, stateSet]

/-- C9: `retrieve_userinfo` is total and always reports success: on every
session state its result dictionary maps `status` to `success`, and when a
key is absent the corresponding field holds the placeholder string, so the
status field cannot distinguish missing data from stored data. -/
theorem retrieve_userinfo_total (st : SessionState) :
    (retrieve_userinfo ⟨st⟩).lookup "status" = some "success" ∧
    (st "user:name" = none →
      (retrieve_userinfo ⟨st⟩).lookup "user_name" = some "Username not found") ∧
    (st "user:country" = none →
      (retrieve_userinfo ⟨st⟩).lookup "country" = some "Country not found") := by
  refine ⟨rfl, fun h => ?_, fun h => ?_⟩ <;>
    simp [retrieve_userinfo, stateGetD, h, List.lookup]

/-- Witness for C9: on the empty session state the placeholder for the
missing username is returned. -/
theorem retrieve_userinfo_total_witness :
    (retrieve_userinfo ⟨fun _ => none⟩).lookup "user_name" =
      some "Username not found" :=
  (retrieve_userinfo_total (fun _ => none)).2.1 rfl

/-- C10: `save_userinfo` writes only the keys `user:name` and
`user:country`; every other key keeps the value it had before the call. -/
theorem save_userinfo_frame (st : SessionState) (n c k : String)
    (hk1 : k ≠ "user:name") (hk2 : k ≠ "user:country") :
    ((save_userinfo ⟨st⟩ n c).1).state k = st k := by
  simp [save_userinfo, stateSet, hk1, hk2]

/-- Witness for C10: a key disjoint from the two written keys is untouched
on a concrete state. -/
theorem save_userinfo_frame_witness :
    ((save_userinfo ⟨fun _ => some "old"⟩ "alice" "France").1).state "user:city" =
      some "old" :=
  save_userinfo_frame (fun _ => some "old") "alice" "France" "user:city"
    (by decide) (by decide)

/-- C3: both agents use `DatabaseSessionService(db_url=DB_URL)` exactly when
the environment variable `SESSION_SERVICE_TYPE` equals the string
`database` (case-sensitively), and the in-memory service in every other
case, including when the variable is unset or holds a value such as
`Database`. -/
theorem session_service_selection (env : String → Option String) :
    (sessionAgent_session_service env =
        .databaseSessionService (pyGetenv env "DB_URL" "sqlite:///session_data.db") ↔
      env "SESSION_SERVICE_TYPE" = some "database") ∧
    (env "SESSION_SERVICE_TYPE" ≠ some "database" →
      sessionAgent_session_service env = .inMemorySessionService) ∧
    (memoryAgent_session_service env =
        .databaseSessionService (pyGetenv env "DB_URL" "sqlite:///memory_data.db") ↔
      env "SESSION_SERVICE_TYPE" = some "database") ∧
    (env "SESSION_SERVICE_TYPE" ≠ some "database" →
      memoryAgent_session_service env = .inMemorySessionService) := by
  have hval : ∀ s : String, (some s).getD "inmemory" = s := fun _ => rfl
  cases h : env "SESSION_SERVICE_TYPE" with
  | none =>
      refine ⟨?_, fun _ => ?_, ?_, fun _ => ?_⟩ <;>
        simp [sessionAgent_session_service, memoryAgent_session_service,
          pyGetenv, h]
  | some s =>
      by_cases hs : s = "database" <;>
        refine ⟨?_, fun hne => ?_, ?_, fun hne => ?_⟩ <;>
          simp_all [sessionAgent_session_service, memoryAgent_session_service,
            pyGetenv, h, hs]

/-- Witness for C3: with `SESSION_SERVICE_TYPE` unset both agents fall back
to the in-memory session service. -/
theorem session_service_selection_witness :
    sessionAgent_session_service (fun _ => none) = .inMemorySessionService ∧
    memoryAgent_session_service (fun _ => none) = .inMemorySessionService :=
  ⟨(session_service_selection (fun _ => none)).2.1 (by simp),
   (session_service_selection (fun _ => none)).2.2.2 (by simp)⟩

/-- C2: every name re-exported by `shipping_agent/__init__.py` is defined by
the `shipping_agent.agent` module, so the demo driver's import
`from shipping_agent.agent import run_shipping_workflow` resolves. -/
theorem shipping_reexports_defined :
    (∀ n ∈ shippingInitReexports, n ∈ shippingAgentModuleDefs) ∧
    "run_shipping_workflow" ∈ shippingAgentModuleDefs := by
  decide

/-- C6: the customer support agent is declared with exactly one sub-agent,
the `RemoteA2aAgent` proxy whose `agent_card` is the value of
`PRODUCT_CATALOG_URL` (default `http://localhost:8001`) concatenated with
the framework's well-known agent-card path; this proxy is the declared
transport to the product catalog agent. -/
theorem customer_support_single_remote_subagent
    (env : String → Option String) (agentCardWellKnownPath : String) :
    (customer_support_agent env agentCardWellKnownPath).sub_agents =
      [.remoteA2a (remote_product_catalog_agent env agentCardWellKnownPath)] ∧
    (customer_support_agent env agentCardWellKnownPath).sub_agents.length = 1 ∧
    (remote_product_catalog_agent env agentCardWellKnownPath).agent_card =
      pyGetenv env "PRODUCT_CATALOG_URL" "http://localhost:8001" ++
        agentCardWellKnownPath ∧
    (env "PRODUCT_CATALOG_URL" = none →
      (remote_product_catalog_agent env agentCardWellKnownPath).agent_card =
        "http://localhost:8001" ++ agentCardWellKnownPath) := by
  refine ⟨rfl, rfl, rfl, fun h => ?_⟩
  simp [remote_product_catalog_agent, PRODUCT_CATALOG_URL, pyGetenv, h]

/-- Witness for C6: with `PRODUCT_CATALOG_URL` unset the proxy's agent card
is the default URL followed by the well-known path. -/
theorem customer_support_single_remote_subagent_witness :
    (remote_product_catalog_agent (fun _ => none)
        "/.well-known/agent-card.json").agent_card =
      "http://localhost:8001" ++ "/.well-known/agent-card.json" :=
  (customer_support_single_remote_subagent (fun _ => none)
    "/.well-known/agent-card.json").2.2.2 rfl

/-! ## Theorems for the agents API server -/

/-- C4 counterexample: the request whose `agent_name` is the empty string
has `agent_name` set and not among the nine known names, yet — because
`request.agent_name or "helpful_assistant"` treats the empty string as
falsy — the handler falls back to `helpful_assistant` and can answer 200,
not 500. -/
theorem chat_unknown_agent_counterexample :
    (some "" ≠ (none : Option String)) ∧
    "" ∉ agent_paths_keys ∧
    chat chatRunnerOk ⟨"hi", some "", none⟩ =
      .ok ⟨"ok", "helpful_assistant", none⟩ :=
  ⟨by decide, by decide, rfl⟩

/-- C4 (amended): a request whose `agent_name` is set, non-empty, and not
one of the nine known agent names is answered with HTTP 500 whose detail
begins `Error running agent:` — the `ValueError` raised by `get_agent` is
caught by the catch-all handler and surfaced as 500, not 404. -/
theorem chat_unknown_agent_500 (runAgent : String → String → Except String String)
    (request : ChatRequest) (n : String)
    (h1 : request.agent_name = some n) (h2 : n ≠ "")
    (h3 : n ∉ agent_paths_keys) :
    chat runAgent request =
      .error ⟨500, "Error running agent: " ++ unknown_agent_message n⟩ ∧
    ∃ rest, "Error running agent: " ++ unknown_agent_message n =
      "Error running agent:" ++ rest := by
  constructor
  · simp [chat, pyOrStr, h1, h2, get_agent_check, h3]
  · exact ⟨" " ++ unknown_agent_message n, rfl⟩

/-- Witness for C4: the unknown name `bogus` is refused with 500. -/
theorem chat_unknown_agent_500_witness :
    chat chatRunnerOk ⟨"hi", some "bogus", none⟩ =
      .error ⟨500, "Error running agent: " ++ unknown_agent_message "bogus"⟩ :=
  (chat_unknown_agent_500 chatRunnerOk ⟨"hi", some "bogus", none⟩
    "bogus" rfl (by decide) (by decide)).1

/-- C8 counterexample: a request that provides `agent_name` as the empty
string succeeds with the response field `helpful_assistant`, not the
provided value — `request.agent_name or "helpful_assistant"` treats the
provided empty string like an omitted one. -/
theorem chat_response_fields_counterexample :
    chat chatRunnerOk ⟨"hi", some "", some "c1"⟩ =
      .ok ⟨"ok", "helpful_assistant", some "c1"⟩ ∧
    ("helpful_assistant" : String) ≠ "" :=
  ⟨rfl, by decide⟩

/-- C8 (amended): every successful `/chat` response carries the request's
`agent_name` when it was provided non-empty, `helpful_assistant` when it
was omitted or provided empty, and the request's `conversation_id`
unchanged. -/
theorem chat_response_fields (runAgent : String → String → Except String String)
    (request : ChatRequest) (resp : ChatResponse)
    (h : chat runAgent request = .ok resp) :
    (∀ n, request.agent_name = some n → n ≠ "" → resp.agent_name = n) ∧
    ((request.agent_name = none ∨ request.agent_name = some "") →
      resp.agent_name = "helpful_assistant") ∧
    resp.conversation_id = request.conversation_id := by
  simp only [chat] at h
  split at h
  · simp at h
  · split at h
    · simp at h
    · injection h with h
      subst h
      refine ⟨fun n hn hne => ?_, fun hcase => ?_, rfl⟩
      · simp [pyOrStr, hn, hne]
      · rcases hcase with h0 | h0 <;> simp [pyOrStr, h0]

/-- Witness for C8: a successful run of the known `currency_agent` echoes
the requested agent name and conversation id. -/
theorem chat_response_fields_witness :
    (ChatResponse.mk "ok" "currency_agent" (some "c7")).agent_name =
      "currency_agent" ∧
    (ChatResponse.mk "ok" "currency_agent" (some "c7")).conversation_id =
      some "c7" :=
  ⟨(chat_response_fields chatRunnerOk ⟨"hi", some "currency_agent", some "c7"⟩
      (ChatResponse.mk "ok" "currency_agent" (some "c7")) rfl).1
      "currency_agent" rfl (by decide),
   (chat_response_fields chatRunnerOk ⟨"hi", some "currency_agent", some "c7"⟩
      (ChatResponse.mk "ok" "currency_agent" (some "c7")) rfl).2.2⟩

/-! ## Theorems for the Vertex AI bridge -/

/-- The empty needle is contained in every haystack, as for Python
substring containment. -/
theorem pyInChars_nil (hay : List Char) : pyInChars [] hay = true := by
  cases hay <;> rfl

/-- An empty requested name matches every deployed agent, since the empty
string is a substring of every id. -/
theorem agent_name_matches_empty (a : AgentEngineAgent) :
    agent_name_matches "" a = true := by
  have h : pyInStr (pyLower "") (pyLower (agent_engine_id a)) = true := by
    simpa [pyInStr, pyLower] using pyInChars_nil (pyLower (agent_engine_id a)).data
  simp [agent_name_matches, h]

/-- C5: the deployed-agent lookup of the Vertex AI bridge: a cache miss
with no deployed agents raises 404; a cache miss on a non-empty name that
matches no deployed agent id (case-insensitive equality or substring
containment) raises 404 listing the available agent ids; and the empty
name returns the first agent in listed order. -/
theorem get_deployed_agent_spec :
    (∀ (cache : String → Option AgentEngineAgent) (name : String),
      cache name = none →
      get_deployed_agent cache [] name = .error ⟨404, noAgentsDetail⟩) ∧
    (∀ (cache : String → Option AgentEngineAgent)
      (agents_list : List AgentEngineAgent) (name : String),
      cache name = none → name ≠ "" → agents_list ≠ [] →
      (∀ a ∈ agents_list, agent_name_matches name a = false) →
      get_deployed_agent cache agents_list name =
        .error ⟨404, agentNotFoundDetail name agents_list⟩) ∧
    (∀ (cache : String → Option AgentEngineAgent)
      (a : AgentEngineAgent) (rest : List AgentEngineAgent),
      cache "" = none →
      get_deployed_agent cache (a :: rest) "" = .ok a) := by
  refine ⟨?_, ?_, ?_⟩
  · intro cache name hc
    simp [get_deployed_agent, hc]
  · intro cache agents_list name hc hn hl hm
    cases agents_list with
    | nil => exact absurd rfl hl
    | cons a0 rest =>
      have hfind : (a0 :: rest).find?
          (fun a => agent_name_matches name a) = none :=
        List.find?_eq_none.mpr (fun x hx => by simp [hm x hx])
      simp [get_deployed_agent, hc, hfind, hn]
  · intro cache a rest hc
    simp [get_deployed_agent, hc, List.find?_cons, agent_name_matches_empty]

/-- Witness for C5: the three branches at concrete inputs — an empty
listing, a non-matching name, and the empty-name fallback. -/
theorem get_deployed_agent_spec_witness :
    get_deployed_agent (fun _ => none) [] "zzz" =
      .error ⟨404, noAgentsDetail⟩ ∧
    get_deployed_agent (fun _ => none)
      [⟨"projects/p/locations/l/reasoningEngines/abc123"⟩] "zzz" =
      .error ⟨404, agentNotFoundDetail "zzz"
        [⟨"projects/p/locations/l/reasoningEngines/abc123"⟩]⟩ ∧
    get_deployed_agent (fun _ => none)
      [⟨"projects/p/locations/l/reasoningEngines/abc123"⟩] "" =
      .ok ⟨"projects/p/locations/l/reasoningEngines/abc123"⟩ :=
  ⟨get_deployed_agent_spec.1 (fun _ => none) "zzz" rfl,
   get_deployed_agent_spec.2.1 (fun _ => none)
     [⟨"projects/p/locations/l/reasoningEngines/abc123"⟩] "zzz" rfl
     (by decide) (by decide) (by decide),
   get_deployed_agent_spec.2.2 (fun _ => none)
     ⟨"projects/p/locations/l/reasoningEngines/abc123"⟩ [] rfl⟩

/-! ## Theorems for the logging configuration -/

/-- The closing normalisation loop only removes handlers: every surviving
handler was in the list it started from. -/
theorem mem_finalHandlerPass :
    ∀ (l : List LogHandler) (x : LogHandler),
      x ∈ finalHandlerPass l → x ∈ l
  | [], x, hx => by simp [finalHandlerPass] at hx
  | [h], x, hx => by
    by_cases hf : isFileHandlerInst h = true <;>
      simp_all [finalHandlerPass]
  | h1 :: h2 :: rest, x, hx => by
    by_cases hf : isFileHandlerInst h1 = true
    · rw [finalHandlerPass, if_pos hf] at hx
      rcases List.mem_cons.mp hx with h | h
      · simp [h]
      · exact List.mem_cons_of_mem _ (mem_finalHandlerPass (h2 :: rest) x h)
    · rw [finalHandlerPass, if_neg hf] at hx
      rcases List.mem_cons.mp hx with h | h
      · simp [h]
      · exact List.mem_cons_of_mem _
          (List.mem_cons_of_mem _ (mem_finalHandlerPass rest x h))

/-- C7 counterexample: with two handlers on the root logger that are
neither stream nor file handlers, the closing loop removes the first but
skips the second (removal shifts the list under the live iterator), so a
non-`FileHandler` survives `setup_adk_logging(file_only=True)`. -/
theorem setup_file_only_counterexample :
    setup_adk_logging_file_only
        [LogHandler.otherHandler, LogHandler.otherHandler] none =
      [LogHandler.otherHandler, LogHandler.fileHandler] ∧
    isFileHandlerInst LogHandler.otherHandler = false := by
  decide

/-- C7 (amended): after `setup_adk_logging(file_only=True)` (with
`log_file` left to its default, as every caller in the repository does)
no stream handler remains on the root logger — every console output path
is gone — and the root's handlers are exactly one fresh `FileHandler`
whenever at most one non-stream, non-file handler was attached before the
call; with two or more such handlers the remove-while-iterating skip can
leave one attached. -/
theorem setup_file_only_handlers (handlers : List LogHandler)
    (log_file : Option String) :
    (∀ h ∈ setup_adk_logging_file_only handlers log_file,
      h ≠ LogHandler.streamHandler) ∧
    ((handlers.filter (fun h => h == LogHandler.otherHandler)).length ≤ 1 →
      setup_adk_logging_file_only handlers none = [LogHandler.fileHandler]) := by
  constructor
  · intro x hx
    have hx2 : x ∈ fileOnlyHandlersBeforeFinalPass handlers log_file :=
      mem_finalHandlerPass _ x hx
    have hmem : ∀ y ∈ fileOnlyHandlersBeforeFinalPass handlers log_file,
        y ≠ LogHandler.streamHandler := by
      intro y hy
      have hfilter : ∀ z ∈ removeStreamHandlersPass handlers,
          z ≠ LogHandler.streamHandler := by
        intro z hz
        have := (List.mem_filter.mp hz).2
        cases z <;> simp_all [isStreamHandlerInst]
      cases log_file with
      | none =>
        simp only [fileOnlyHandlersBeforeFinalPass] at hy
        rcases List.mem_append.mp hy with h | h
        · exact hfilter y h
        · simp_all
      | some s =>
        simp only [fileOnlyHandlersBeforeFinalPass] at hy
        by_cases hs : s = ""
        · rw [if_pos hs] at hy
          exact hfilter y hy
        · rw [if_neg hs] at hy
          rcases List.mem_append.mp hy with h | h
          · exact hfilter y h
          · simp_all
    exact hmem x hx2
  · intro hcount
    have hrm : removeStreamHandlersPass handlers =
        handlers.filter (fun h => h == LogHandler.otherHandler) :=
      List.filter_congr (fun x _ => by cases x <;> rfl)
    rcases hF : handlers.filter (fun h => h == LogHandler.otherHandler) with
      _ | ⟨a, _ | ⟨b, t2⟩⟩
    · unfold setup_adk_logging_file_only fileOnlyHandlersBeforeFinalPass
      rw [hrm, hF]
      decide
    · have ha : a = LogHandler.otherHandler := by
        have hmem : a ∈ handlers.filter
            (fun h => h == LogHandler.otherHandler) := by
          rw [hF]; exact List.mem_cons_self a []
        have := (List.mem_filter.mp hmem).2
        cases a <;> simp_all
      subst ha
      unfold setup_adk_logging_file_only fileOnlyHandlersBeforeFinalPass
      rw [hrm, hF]
      decide
    · rw [hF] at hcount
      simp at hcount

/-- Witness for C7: a root logger holding a console stream handler and a
file handler ends up with exactly one file handler. -/
theorem setup_file_only_handlers_witness :
    setup_adk_logging_file_only
        [LogHandler.streamHandler, LogHandler.fileHandler] none =
      [LogHandler.fileHandler] :=
  (setup_file_only_handlers
    [LogHandler.streamHandler, LogHandler.fileHandler] none).2 (by decide)
